import Mathlib

/-!
Verification of the trace-parsing and script-synthesis program
`core/swift3Action/buildandrecord.py`.

The program drives `swift build -v -c release`, scans the captured trace for
a compiler invocation line and a linker invocation line, and appends a shell
script reproducing the two steps to a fixed destination file.  The embedding
below models the configuration constants, the scanning loop, the script
template, and the observable effects (prints, file appends, chmod, exit) of
one run as pure Lean definitions.
-/

/-- Source constant `COMPILE_PREFIX` (buildandrecord.py line 22). -/
def COMPILE_PREFIX : String := "/usr/bin/swiftc -module-name Action "

/-- Source constant `LINKER_PREFIX` (line 23; the backslash–newline in the
Python literal is a line continuation, so the literal ends at `Action'`). -/
def LINKER_PREFIX : String :=
  "/usr/bin/swiftc -Xlinker '-rpath=$ORIGIN' '-L/swift3Action/spm-build/.build/release' -o '/swift3Action/spm-build/.build/release/Action'"

/-- Source constant `GENERATED_BUILD_SCRIPT` (line 25). -/
def GENERATED_BUILD_SCRIPT : String := "/swift3Action/spm-build/swiftbuildandlink.sh"

/-- Source constant `SPM_DIRECTORY` (line 26). -/
def SPM_DIRECTORY : String := "/swift3Action/spm-build"

/-- Source constant `BUILD_COMMAND` (line 27). -/
def BUILD_COMMAND : List String := ["swift", "build", "-v", "-c", "release"]

/-- Embedding of Python `s.startswith(p)`: `p` is a character-for-character
prefix of `s`. -/
def pyStartswith (s p : String) : Bool := p.data.isPrefixOf s.data

/-- The test `instruction.startswith(COMPILE_PREFIX)` (line 40). -/
def isCompileLine (instruction : String) : Bool := pyStartswith instruction COMPILE_PREFIX

/-- The test `instruction.startswith(LINKER_PREFIX)` (line 46). -/
def isLinkLine (instruction : String) : Bool := pyStartswith instruction LINKER_PREFIX

/-- The flag append of line 44: `compileCommand += " -suppress-warnings"`. -/
def addSuppress (instruction : String) : String := instruction ++ " -suppress-warnings"

/-- The two mutable variables of the scanning loop, `compileCommand` and
`linkCommand`, each `None` (absent) or a string (lines 33 and 34). -/
structure ExtractState where
  compileCommand : Option String
  linkCommand : Option String
deriving DecidableEq, Repr

/-- One iteration of the loop of lines 39 to 47:
`if instruction.startswith(COMPILE_PREFIX): compileCommand = instruction;
compileCommand += " -suppress-warnings"` and
`elif instruction.startswith(LINKER_PREFIX): linkCommand = instruction`.
Setting the variable and then appending the flag is modelled as one
assignment of the concatenation.  Each match overwrites the variable
unconditionally, exactly as the Python does. -/
def scanStep (s : ExtractState) (instruction : String) : ExtractState :=
  if isCompileLine instruction then
    { s with compileCommand := some (addSuppress instruction) }
  else if isLinkLine instruction then
    { s with linkCommand := some instruction }
  else s

/-- The whole scanning loop over `buildInstructions`, starting from both
variables `None` (lines 33 to 47). -/
def extract (buildInstructions : List String) : ExtractState :=
  buildInstructions.foldl scanStep ⟨none, none⟩

/-- The chunks written to the script file by the successive
`buildScript.write(...)` calls of lines 56 to 67, in write order, with the
two commands interpolated exactly where `"%s\n" %` puts them. -/
def scriptChunks (compileCommand linkCommand : String) : List String :=
  [ "#!/bin/bash\n",
    "echo \"Compiling\"\n",
    compileCommand ++ "\n",
    "swiftStatus=$?\n",
    "echo swiftc status is $swiftStatus\n",
    "if [[ \"$swiftStatus\" -eq \"0\" ]]; then\n",
    "echo \"Linking\"\n",
    linkCommand ++ "\n",
    "else\n",
    ">2& echo \"Action did not compile\"\n",
    "exit 1\n",
    "fi" ]

/-- Concatenation of a list of written chunks into the text they add to the
file. -/
def concatChunks : List String → String
  | [] => ""
  | c :: cs => c ++ concatChunks cs

/-- The full text of one rendered script body. -/
def scriptBody (compileCommand linkCommand : String) : String :=
  concatChunks (scriptChunks compileCommand linkCommand)

/-- Observable actions of one run, in program order. -/
inductive Event where
  | printed (msg : String)
  | toolInvoked (cmd : List String) (cwd : String)
  | fileAppend (path : String) (chunk : String)
  | chmodded (path : String) (mode : Nat)
deriving DecidableEq, Repr

/-- How one run ends: `sys.exit(code)`, or an uncaught
`CalledProcessError` raised by `check_output` when the build tool returns
`returncode` nonzero (line 30 has no surrounding handler). -/
inductive ProgResult where
  | exited (code : Nat)
  | raised (returncode : Nat)
deriving DecidableEq, Repr

/-- Events before and including the build-tool invocation (lines 29 and 30). -/
def preludeEvents : List Event :=
  [Event.printed "Building action", Event.toolInvoked BUILD_COMMAND SPM_DIRECTORY]

/-- Events of the success branch of lines 51 to 69: the three prints, the
twelve file-append chunks to `GENERATED_BUILD_SCRIPT`, then
`os.chmod(GENERATED_BUILD_SCRIPT, 0777)` (octal `0777` is 511). -/
def successEvents (compileCommand linkCommand : String) : List Event :=
  [ Event.printed ("Generated OpenWhisk Compile command: " ++ compileCommand),
    Event.printed "=========",
    Event.printed ("Generated OpenWhisk Link command: " ++ linkCommand) ]
  ++ (scriptChunks compileCommand linkCommand).map (Event.fileAppend GENERATED_BUILD_SCRIPT)
  ++ [Event.chmodded GENERATED_BUILD_SCRIPT 0o777]

/-- The branch of lines 50 to 74: `if compileCommand != None and linkCommand
!= None:` generate the script and `sys.exit(0)`, `else:` print the
diagnostic and `sys.exit(1)`. -/
def generatePhase (buildInstructions : List String) : List Event × ProgResult :=
  match (extract buildInstructions).compileCommand, (extract buildInstructions).linkCommand with
  | some compileCommand, some linkCommand =>
      (successEvents compileCommand linkCommand, ProgResult.exited 0)
  | _, _ =>
      ([Event.printed "Cannot generate build script: compile or link command not found"],
       ProgResult.exited 1)

/-- One whole run of the program.  The input is the outcome of
`check_output(BUILD_COMMAND, cwd=SPM_DIRECTORY)` at line 30: either the
decoded, line-split trace, or the returncode of a failed tool invocation,
in which case the uncaught exception propagates and nothing further runs. -/
def runProgram (toolOutcome : Except Nat (List String)) : List Event × ProgResult :=
  match toolOutcome with
  | Except.error rc => (preludeEvents, ProgResult.raised rc)
  | Except.ok buildInstructions =>
      (preludeEvents
        ++ [Event.printed "action built. Decoding compile and link commands"]
        ++ (generatePhase buildInstructions).1,
       (generatePhase buildInstructions).2)

/-- Whether an event touches the destination file (a write or a permission
change). -/
def isWriteEvent : Event → Bool
  | Event.fileAppend _ _ => true
  | Event.chmodded _ _ => true
  | _ => false

/-- Effect of one event on the contents of the destination script file:
the file is opened in append mode (`open(GENERATED_BUILD_SCRIPT, "a")`,
line 55), so a `fileAppend` chunk for that path is concatenated at the end
of the existing contents, and every other event leaves the file unchanged. -/
def applyEvent (contents : String) (e : Event) : String :=
  match e with
  | Event.fileAppend path chunk =>
      if path = GENERATED_BUILD_SCRIPT then contents ++ chunk else contents
  | Event.printed _ => contents
  | Event.toolInvoked _ _ => contents
  | Event.chmodded _ _ => contents

/-- Contents of the destination file after a run on trace `trace`, starting
from pre-existing contents `old`. -/
def runContents (old : String) (trace : List String) : String :=
  (runProgram (Except.ok trace)).1.foldl applyEvent old

/-- Rightmost-match characterisation: the value a scan over the list leaves
behind for a category with test `p`, namely `f` of the last element
satisfying `p`, since each later match overwrites the earlier ones. -/
def lastMatchBy (p : String → Bool) (f : String → String) : List String → Option String
  | [] => none
  | i :: rest =>
    match lastMatchBy p f rest with
    | some v => some v
    | none => if p i then some (f i) else none

/-- The compile command the loop leaves behind: the last compile-matching
line, with the suppress-warnings flag appended. -/
def lastCompileMatch (t : List String) : Option String :=
  lastMatchBy isCompileLine addSuppress t

/-- The link command the loop leaves behind: the last link-matching line,
verbatim. -/
def lastLinkMatch (t : List String) : Option String :=
  lastMatchBy isLinkLine (fun i => i) t

/-- A concrete compile invocation line such as `swift build -v` emits. -/
def sampleCompileLine : String := COMPILE_PREFIX ++ "-Onone /swift3Action/spm-build/Sources/main.swift"

/-- A second compile invocation line with different trailing arguments. -/
def otherCompileLine : String := COMPILE_PREFIX ++ "-O /swift3Action/spm-build/Sources/other.swift"

/-- A concrete linker invocation line. -/
def sampleLinkLine : String := LINKER_PREFIX ++ " /swift3Action/spm-build/.build/release/main.swift.o"

/-- A concrete trace holding exactly one compile line and one link line. -/
def sampleTrace : List String := ["Compile Swift Module Action", sampleCompileLine, sampleLinkLine]

/-! Helper lemmas about the scanning loop. -/

theorem scanStep_compileCommand (s : ExtractState) (i : String) :
    (scanStep s i).compileCommand =
      if isCompileLine i then some (addSuppress i) else s.compileCommand := by
  unfold scanStep
  cases h1 : isCompileLine i <;> cases h2 : isLinkLine i <;> simp [h1, h2]

theorem scanStep_linkCommand (s : ExtractState) (i : String) :
    (scanStep s i).linkCommand =
      if isCompileLine i then s.linkCommand
      else if isLinkLine i then some i else s.linkCommand := by
  unfold scanStep
  cases h1 : isCompileLine i <;> cases h2 : isLinkLine i <;> simp [h1, h2]

/-- The two recognition prefixes are disjoint: no line satisfies both tests
(neither prefix is a prefix of the other, and two prefixes of the same line
would be comparable). -/
theorem not_both_line_kinds (s : String) :
    ¬(isCompileLine s = true ∧ isLinkLine s = true) := by
  rintro ⟨hc, hl⟩
  simp only [isCompileLine, isLinkLine, pyStartswith] at hc hl
  have hc' : COMPILE_PREFIX.data <+: s.data := List.isPrefixOf_iff_prefix.mp hc
  have hl' : LINKER_PREFIX.data <+: s.data := List.isPrefixOf_iff_prefix.mp hl
  rcases List.prefix_or_prefix_of_prefix hc' hl' with h | h
  · have ht : COMPILE_PREFIX.data.isPrefixOf LINKER_PREFIX.data = true :=
      List.isPrefixOf_iff_prefix.mpr h
    have hf : COMPILE_PREFIX.data.isPrefixOf LINKER_PREFIX.data = false := by decide
    rw [hf] at ht
    exact Bool.noConfusion ht
  · have ht : LINKER_PREFIX.data.isPrefixOf COMPILE_PREFIX.data = true :=
      List.isPrefixOf_iff_prefix.mpr h
    have hf : LINKER_PREFIX.data.isPrefixOf COMPILE_PREFIX.data = false := by decide
    rw [hf] at ht
    exact Bool.noConfusion ht

theorem compile_line_not_link (s : String) (hc : isCompileLine s = true) :
    isLinkLine s = false := by
  cases h : isLinkLine s
  · rfl
  · exact absurd ⟨hc, h⟩ (not_both_line_kinds s)

theorem link_line_not_compile (s : String) (hl : isLinkLine s = true) :
    isCompileLine s = false := by
  cases h : isCompileLine s
  · rfl
  · exact absurd ⟨h, hl⟩ (not_both_line_kinds s)

theorem lastMatchBy_eq_none (p : String → Bool) (f : String → String)
    (t : List String) (h : t.filter p = []) : lastMatchBy p f t = none := by
  induction t with
  | nil => rfl
  | cons i rest ih =>
    cases hp : p i
    · rw [List.filter_cons_of_neg (by simp [hp])] at h
      simp [lastMatchBy, ih h, hp]
    · rw [List.filter_cons_of_pos hp] at h
      exact absurd h (List.cons_ne_nil _ _)

theorem lastMatchBy_singleton (p : String → Bool) (f : String → String)
    (t : List String) (c : String) (h : t.filter p = [c]) :
    lastMatchBy p f t = some (f c) := by
  induction t with
  | nil => simp at h
  | cons i rest ih =>
    cases hp : p i
    · rw [List.filter_cons_of_neg (by simp [hp])] at h
      simp [lastMatchBy, ih h]
    · rw [List.filter_cons_of_pos hp] at h
      have hi : i = c := (List.cons.injEq _ _ _ _ ▸ h).1
      have hrest : rest.filter p = [] := (List.cons.injEq _ _ _ _ ▸ h).2
      subst hi
      simp [lastMatchBy, lastMatchBy_eq_none p f rest hrest, hp]

theorem lastMatchBy_mem (p : String → Bool) (f : String → String)
    (t : List String) (v : String) (h : lastMatchBy p f t = some v) :
    ∃ i, i ∈ t ∧ p i = true ∧ v = f i := by
  induction t with
  | nil => simp [lastMatchBy] at h
  | cons i rest ih =>
    simp only [lastMatchBy] at h
    cases hr : lastMatchBy p f rest
    · rw [hr] at h
      cases hp : p i
      · rw [hp] at h; simp at h
      · rw [hp] at h
        simp at h
        exact ⟨i, List.mem_cons_self i rest, hp, h.symm⟩
    · rw [hr] at h
      simp at h
      obtain ⟨j, hj, hpj, hv⟩ := ih (hr.trans (by rw [h]))
      exact ⟨j, List.mem_cons_of_mem i hj, hpj, hv⟩

theorem foldl_scanStep_compileCommand (t : List String) (s : ExtractState) :
    (t.foldl scanStep s).compileCommand =
      (lastCompileMatch t).or s.compileCommand := by
  induction t generalizing s with
  | nil => rfl
  | cons i rest ih =>
    rw [List.foldl_cons, ih]
    simp only [lastCompileMatch, lastMatchBy]
    cases hr : lastMatchBy isCompileLine addSuppress rest
    · rw [scanStep_compileCommand]
      cases hp : isCompileLine i <;> simp [hp]
    · simp

theorem foldl_scanStep_linkCommand (t : List String) (s : ExtractState) :
    (t.foldl scanStep s).linkCommand =
      (lastLinkMatch t).or s.linkCommand := by
  induction t generalizing s with
  | nil => rfl
  | cons i rest ih =>
    rw [List.foldl_cons, ih]
    simp only [lastLinkMatch, lastMatchBy]
    cases hr : lastMatchBy isLinkLine (fun i => i) rest
    · rw [scanStep_linkCommand]
      cases hp : isLinkLine i
      · simp [hp]
      · rw [link_line_not_compile i hp]
        simp [hp]
    · simp

theorem extract_compileCommand (t : List String) :
    (extract t).compileCommand = lastCompileMatch t := by
  rw [extract, foldl_scanStep_compileCommand]
  exact Option.or_none

theorem extract_linkCommand (t : List String) :
    (extract t).linkCommand = lastLinkMatch t := by
  rw [extract, foldl_scanStep_linkCommand]
  exact Option.or_none

/-! Helper lemmas about one whole run and the destination file. -/

theorem generatePhase_found (t : List String) (c l : String)
    (hC : (extract t).compileCommand = some c)
    (hL : (extract t).linkCommand = some l) :
    generatePhase t = (successEvents c l, ProgResult.exited 0) := by
  unfold generatePhase
  rw [hC, hL]

theorem generatePhase_missing (t : List String)
    (h : (extract t).compileCommand = none ∨ (extract t).linkCommand = none) :
    generatePhase t =
      ([Event.printed "Cannot generate build script: compile or link command not found"],
       ProgResult.exited 1) := by
  unfold generatePhase
  cases hC : (extract t).compileCommand with
  | none => cases hL : (extract t).linkCommand <;> rfl
  | some c =>
    cases hL : (extract t).linkCommand with
    | none => rfl
    | some l =>
      rw [hC, hL] at h
      rcases h with h | h <;> exact absurd h (by simp)

theorem runProgram_ok (t : List String) :
    runProgram (Except.ok t) =
      (preludeEvents
        ++ [Event.printed "action built. Decoding compile and link commands"]
        ++ (generatePhase t).1,
       (generatePhase t).2) := rfl

theorem runProgram_error (rc : Nat) :
    runProgram (Except.error rc) = (preludeEvents, ProgResult.raised rc) := rfl

theorem foldl_applyEvent_append (evs1 evs2 : List Event) (old : String) :
    (evs1 ++ evs2).foldl applyEvent old = evs2.foldl applyEvent (evs1.foldl applyEvent old) :=
  List.foldl_append _ _ _ _

theorem foldl_applyEvent_chunks (chunks : List String) (old : String) :
    ((chunks.map (Event.fileAppend GENERATED_BUILD_SCRIPT)).foldl applyEvent old)
      = old ++ concatChunks chunks := by
  induction chunks generalizing old with
  | nil => simp [concatChunks]
  | cons ch rest ih => simp [applyEvent, concatChunks, ih, String.append_assoc]

theorem foldl_applyEvent_success (c l : String) (old : String) :
    (successEvents c l).foldl applyEvent old = old ++ scriptBody c l := by
  unfold successEvents
  rw [foldl_applyEvent_append, foldl_applyEvent_append]
  simp only [List.foldl_cons, List.foldl_nil, applyEvent]
  exact foldl_applyEvent_chunks _ _

theorem runContents_found (old : String) (t : List String) (c l : String)
    (hC : (extract t).compileCommand = some c)
    (hL : (extract t).linkCommand = some l) :
    runContents old t = old ++ scriptBody c l := by
  unfold runContents
  rw [runProgram_ok, generatePhase_found t c l hC hL]
  simp only [preludeEvents, List.append_assoc, List.cons_append, List.nil_append,
    List.foldl_cons, applyEvent]
  exact foldl_applyEvent_success c l old

/-- Every link-matching line begins with a slash. -/
theorem link_line_head (l : String) (hl : isLinkLine l = true) :
    ∃ rest : List Char, l.data = '/' :: rest := by
  simp only [isLinkLine, pyStartswith] at hl
  obtain ⟨t, ht⟩ := List.isPrefixOf_iff_prefix.mp hl
  have hcons : LINKER_PREFIX.data =
      '/' :: ("usr/bin/swiftc -Xlinker '-rpath=$ORIGIN' '-L/swift3Action/spm-build/.build/release' -o '/swift3Action/spm-build/.build/release/Action'" : String).data := rfl
  rw [hcons, List.cons_append] at ht
  exact ⟨_, ht.symm⟩

/-- The link command's script line differs from any chunk that does not
begin with a slash. -/
theorem link_chunk_ne (l : String) (hl : isLinkLine l = true)
    (s : String) (hs : s.data.head? ≠ some '/') : l ++ "\n" ≠ s := by
  intro he
  obtain ⟨rest, hrest⟩ := link_line_head l hl
  have hd : (l ++ "\n").data = '/' :: (rest ++ ['\n']) := by
    rw [String.data_append, hrest]
    rfl
  apply hs
  rw [← he, hd]
  rfl

/-! Claim theorems. -/

/-- C1 counterexample: for the trace holding the compile line twice with
different trailing arguments, the extractor does not return the command
built from the first occurrence; it returns the one built from the second. -/
theorem extract_first_occurrence_refuted :
    (extract [sampleCompileLine, otherCompileLine]).compileCommand ≠
      some (addSuppress sampleCompileLine) ∧
    (extract [sampleCompileLine, otherCompileLine]).compileCommand =
      some (addSuppress otherCompileLine) := by
  constructor
  · decide
  · rfl

/-- C1 (amended): for every trace, the extractor returns, for each category,
the last matching line in trace order — each later match overwrites the
stored value — the compile command being that line with the
suppress-warnings flag appended and the link command verbatim; in
particular, for a trace with the compile line twice, the returned compile
command is built from the last occurrence. -/
theorem extract_keeps_last_match (trace : List String) :
    (extract trace).compileCommand = lastCompileMatch trace ∧
    (extract trace).linkCommand = lastLinkMatch trace :=
  ⟨extract_compileCommand trace, extract_linkCommand trace⟩

/-- C2: for every trace in which one or both recognized commands is absent,
the run writes nothing and changes no permissions, prints the diagnostic,
and exits with status 1. -/
theorem missing_command_skips_script (trace : List String)
    (h : (extract trace).compileCommand = none ∨ (extract trace).linkCommand = none) :
    (runProgram (Except.ok trace)).2 = ProgResult.exited 1 ∧
    (∀ e ∈ (runProgram (Except.ok trace)).1, isWriteEvent e = false) ∧
    Event.printed "Cannot generate build script: compile or link command not found"
      ∈ (runProgram (Except.ok trace)).1 := by
  rw [runProgram_ok, generatePhase_missing trace h]
  refine ⟨rfl, ?_, ?_⟩
  · decide
  · decide

/-- C2 witness: the one-line trace with no recognized command. -/
theorem missing_command_skips_script_witness :
    (runProgram (Except.ok ["Compile Swift Module Action"])).2 = ProgResult.exited 1 ∧
    (∀ e ∈ (runProgram (Except.ok ["Compile Swift Module Action"])).1, isWriteEvent e = false) ∧
    Event.printed "Cannot generate build script: compile or link command not found"
      ∈ (runProgram (Except.ok ["Compile Swift Module Action"])).1 :=
  missing_command_skips_script ["Compile Swift Module Action"] (Or.inl rfl)

/-- C3: with both commands present the rendered chunk list is, in template
order: shebang, "Compiling" print, the compile command, the status capture,
the status print, the conditional on that status, then the "Linking" print
and the link command inside the zero-status branch, then the error print
and `exit 1` inside the non-zero branch; and the link command's line occurs
in none of the non-zero-branch chunks. -/
theorem script_template_structure (c l : String) (hl : isLinkLine l = true) :
    scriptChunks c l =
      ["#!/bin/bash\n", "echo \"Compiling\"\n", c ++ "\n", "swiftStatus=$?\n",
       "echo swiftc status is $swiftStatus\n", "if [[ \"$swiftStatus\" -eq \"0\" ]]; then\n"]
      ++ ["echo \"Linking\"\n", l ++ "\n"]
      ++ ["else\n", ">2& echo \"Action did not compile\"\n", "exit 1\n", "fi"] ∧
    (l ++ "\n") ∉ ["else\n", ">2& echo \"Action did not compile\"\n", "exit 1\n", "fi"] := by
  constructor
  · rfl
  · intro hmem
    rcases List.mem_cons.mp hmem with he | hmem
    · exact link_chunk_ne l hl _ (by decide) he
    rcases List.mem_cons.mp hmem with he | hmem
    · exact link_chunk_ne l hl _ (by decide) he
    rcases List.mem_cons.mp hmem with he | hmem
    · exact link_chunk_ne l hl _ (by decide) he
    rcases List.mem_cons.mp hmem with he | hmem
    · exact link_chunk_ne l hl _ (by decide) he
    · exact absurd hmem (List.not_mem_nil _)

/-- C3 witness at a concrete pair of commands. -/
theorem script_template_structure_witness :
    scriptChunks (addSuppress sampleCompileLine) sampleLinkLine =
      ["#!/bin/bash\n", "echo \"Compiling\"\n", addSuppress sampleCompileLine ++ "\n", "swiftStatus=$?\n",
       "echo swiftc status is $swiftStatus\n", "if [[ \"$swiftStatus\" -eq \"0\" ]]; then\n"]
      ++ ["echo \"Linking\"\n", sampleLinkLine ++ "\n"]
      ++ ["else\n", ">2& echo \"Action did not compile\"\n", "exit 1\n", "fi"] ∧
    (sampleLinkLine ++ "\n") ∉ ["else\n", ">2& echo \"Action did not compile\"\n", "exit 1\n", "fi"] :=
  script_template_structure (addSuppress sampleCompileLine) sampleLinkLine (by rfl)

/-- C4: the claim says the error branch redirects the echoed message to the
standard error stream; the code instead emits the literal chunk
`>2& echo "Action did not compile"`, whose first three characters are `>`,
`2`, `&` — a redirection of standard output to a file named `2` followed by
a plain echo — not the standard-error redirection `>&2`. -/
theorem error_branch_literal_text (c l : String) :
    (scriptChunks c l)[9]? = some ">2& echo \"Action did not compile\"\n" ∧
    (">2& echo \"Action did not compile\"\n").data.take 3 ≠ (">&2" : String).data :=
  ⟨rfl, by decide⟩

/-- C5: for every trace with exactly one compile-matching line and exactly
one link-matching line, both commands are returned, the link command
verbatim and the compile command with the flag appended exactly once. -/
theorem unique_lines_extracted (trace : List String) (c l : String)
    (hc : trace.filter isCompileLine = [c])
    (hl : trace.filter isLinkLine = [l]) :
    (extract trace).compileCommand = some (c ++ " -suppress-warnings") ∧
    (extract trace).linkCommand = some l := by
  constructor
  · rw [extract_compileCommand]
    exact lastMatchBy_singleton _ _ _ _ hc
  · rw [extract_linkCommand]
    exact lastMatchBy_singleton _ _ _ _ hl

/-- C5 witness on the three-line sample trace. -/
theorem unique_lines_extracted_witness :
    (extract sampleTrace).compileCommand = some (sampleCompileLine ++ " -suppress-warnings") ∧
    (extract sampleTrace).linkCommand = some sampleLinkLine :=
  unique_lines_extracted sampleTrace sampleCompileLine sampleLinkLine (by rfl) (by rfl)

/-- C6: for one compile-matching line and one link-matching line, extraction
is order-independent: the trace [link, compile] yields the same state as
[compile, link]. -/
theorem extraction_order_independent (c l : String)
    (hc : isCompileLine c = true) (hl : isLinkLine l = true) :
    extract [l, c] = extract [c, l] := by
  simp [extract, scanStep, hc, hl, compile_line_not_link c hc, link_line_not_compile l hl]

/-- C6 witness on the two concrete lines. -/
theorem extraction_order_independent_witness :
    extract [sampleLinkLine, sampleCompileLine] = extract [sampleCompileLine, sampleLinkLine] :=
  extraction_order_independent sampleCompileLine sampleLinkLine (by rfl) (by rfl)

/-- C7: on a successful run the destination write is an append: the old
contents stay a prefix, the fresh body follows them, and a repeated run
accumulates a second copy of the body. -/
theorem script_write_appends (old : String) (trace : List String) (c l : String)
    (hC : (extract trace).compileCommand = some c)
    (hL : (extract trace).linkCommand = some l) :
    runContents old trace = old ++ scriptBody c l ∧
    old.data <+: (runContents old trace).data ∧
    runContents (runContents old trace) trace = (old ++ scriptBody c l) ++ scriptBody c l := by
  have h1 := runContents_found old trace c l hC hL
  refine ⟨h1, ?_, ?_⟩
  · rw [h1, String.data_append]
    exact ⟨_, rfl⟩
  · rw [h1, runContents_found _ trace c l hC hL]

/-- C7 witness: a run over the sample trace on a file already holding text. -/
theorem script_write_appends_witness :
    runContents "#!/bin/bash\n" sampleTrace =
      "#!/bin/bash\n" ++ scriptBody (addSuppress sampleCompileLine) sampleLinkLine ∧
    ("#!/bin/bash\n" : String).data <+: (runContents "#!/bin/bash\n" sampleTrace).data ∧
    runContents (runContents "#!/bin/bash\n" sampleTrace) sampleTrace =
      ("#!/bin/bash\n" ++ scriptBody (addSuppress sampleCompileLine) sampleLinkLine)
        ++ scriptBody (addSuppress sampleCompileLine) sampleLinkLine :=
  script_write_appends "#!/bin/bash\n" sampleTrace
    (addSuppress sampleCompileLine) sampleLinkLine (by rfl) (by rfl)

/-- C8: when both commands are found the run emits the twelve script chunks
to the fixed destination path, then — after all writes — the permission
change to octal 0777, and exits with status 0; every earlier event is
neither a write nor a permission change. -/
theorem success_writes_then_chmod (trace : List String) (c l : String)
    (hC : (extract trace).compileCommand = some c)
    (hL : (extract trace).linkCommand = some l) :
    (runProgram (Except.ok trace)).2 = ProgResult.exited 0 ∧
    ∃ pre : List Event,
      (runProgram (Except.ok trace)).1 =
        pre ++ (scriptChunks c l).map (Event.fileAppend GENERATED_BUILD_SCRIPT)
            ++ [Event.chmodded GENERATED_BUILD_SCRIPT 0o777] ∧
      ∀ e ∈ pre, isWriteEvent e = false := by
  rw [runProgram_ok, generatePhase_found trace c l hC hL]
  refine ⟨rfl, preludeEvents
      ++ [Event.printed "action built. Decoding compile and link commands",
          Event.printed ("Generated OpenWhisk Compile command: " ++ c),
          Event.printed "=========",
          Event.printed ("Generated OpenWhisk Link command: " ++ l)], ?_, ?_⟩
  · simp [successEvents, preludeEvents]
  · intro e he
    simp only [preludeEvents, List.cons_append, List.nil_append, List.mem_cons,
      List.not_mem_nil, or_false] at he
    rcases he with rfl | rfl | rfl | rfl | rfl | rfl <;> rfl

/-- C8 witness on the sample trace. -/
theorem success_writes_then_chmod_witness :
    (runProgram (Except.ok sampleTrace)).2 = ProgResult.exited 0 ∧
    ∃ pre : List Event,
      (runProgram (Except.ok sampleTrace)).1 =
        pre ++ (scriptChunks (addSuppress sampleCompileLine) sampleLinkLine).map
                 (Event.fileAppend GENERATED_BUILD_SCRIPT)
            ++ [Event.chmodded GENERATED_BUILD_SCRIPT 0o777] ∧
      ∀ e ∈ pre, isWriteEvent e = false :=
  success_writes_then_chmod sampleTrace
    (addSuppress sampleCompileLine) sampleLinkLine (by rfl) (by rfl)

/-- C9: when the external build tool exits nonzero, the uncaught exception
propagates: the run ends raised, no write or permission change happens, and
the post-invocation stages (starting with the decode print) are never
reached. -/
theorem tool_failure_aborts_run (rc : Nat) :
    (runProgram (Except.error rc)).2 = ProgResult.raised rc ∧
    (∀ e ∈ (runProgram (Except.error rc)).1, isWriteEvent e = false) ∧
    Event.printed "action built. Decoding compile and link commands"
      ∉ (runProgram (Except.error rc)).1 := by
  rw [runProgram_error]
  refine ⟨rfl, ?_, ?_⟩
  · show ∀ e ∈ preludeEvents, isWriteEvent e = false
    decide
  · show Event.printed "action built. Decoding compile and link commands" ∉ preludeEvents
    decide

/-- C10: whenever a compile command is reported, it is one compile-matching
trace line with the flag appended exactly once (each new match overwrites
the stored value before the flag is appended, so the flag never
accumulates). -/
theorem compile_flag_appended_once (trace : List String) (v : String)
    (h : (extract trace).compileCommand = some v) :
    ∃ line, line ∈ trace ∧ isCompileLine line = true ∧ v = line ++ " -suppress-warnings" := by
  rw [extract_compileCommand] at h
  obtain ⟨i, hi, hp, hv⟩ := lastMatchBy_mem _ _ _ _ h
  exact ⟨i, hi, hp, hv⟩

/-- C10 witness on the sample trace. -/
theorem compile_flag_appended_once_witness :
    ∃ line, line ∈ sampleTrace ∧ isCompileLine line = true ∧
      addSuppress sampleCompileLine = line ++ " -suppress-warnings" :=
  compile_flag_appended_once sampleTrace (addSuppress sampleCompileLine) (by rfl)
